import Mathlib

/-!
# Verification of the statly-node telemetry SDK core

Shallow embedding of the event-batching transport (`src/transport.ts`), the
breadcrumb ring buffer (`src/breadcrumbs.ts`), the multi-destination logger
(`src/logger/types.ts`, the logger class, the console and Observe
destinations), the secret scrubber (`src/logger/scrubbing/scrubber.ts` and
`patterns.ts`), the span/trace wrapper (`src/telemetry.ts`) and the
module-level facade guards, together with theorems settling the spec claims.

Stateful TypeScript classes become explicit state records with pure step
functions; the single-threaded cooperative concurrency model of the SDK is
captured by a small-step action semantics whose actions are the synchronous
segments between `await` points.  Network effects are represented by an
explicit `FetchOutcome` value (2xx / non-2xx / rejected fetch).
-/

namespace Statly

/-! ## Transport (src/src/transport.ts)

`maxQueueSize = 100`, the eager-flush threshold literal `10`, and
`flushInterval = 5000` come from the `Transport` class fields. -/

def maxQueueSize : Nat := 100

def eagerFlushThreshold : Nat := 10

def flushIntervalMs : Nat := 5000

/-- Result value of `Transport.sendBatch` (`TransportResult` in the source):
delivery failures are returned as `success := false`, never thrown. -/
structure TransportResult where
  success : Bool
  status : Option Nat := none
  errorText : Option String := none
deriving DecidableEq, Repr

/-- Outcome of the single `fetch` call made by `sendBatch`: a 2xx response,
a non-2xx response with its body text, or a rejected fetch (network error). -/
inductive FetchOutcome where
  | ok (status : Nat)
  | httpError (status : Nat) (body : String)
  | networkError (message : String)
deriving DecidableEq, Repr

/-- Mutable state of a `Transport` instance.  `pending` is the batch swapped
out by an in-flight `flush` (set while `isSending`), and `delivered` is a
ghost log of batches whose POST returned 2xx, used to observe which events
actually left the process. -/
structure TransportState (α : Type) where
  queue : List α
  isSending : Bool
  pending : Option (List α)
  delivered : List (List α)
deriving DecidableEq, Repr

/-- `Transport.startFlushTimer`: the periodic timer is started only when
`typeof window !== 'undefined'`; it returns the interval of the timer that
was installed, if any. -/
def Transport.startFlushTimer (hostHasWindow : Bool) : Option Nat :=
  if hostHasWindow then some flushIntervalMs else none

/-- `Transport.sendBatch` (src/transport.ts lines 115-160).  The whole body
sits in a `try`/`catch`: a non-2xx response and a rejected `fetch` are both
converted to a `success := false` result, so the function is total — the
promise it returns never rejects. -/
def Transport.sendBatch {α : Type} (events : List α) (out : FetchOutcome) :
    TransportResult :=
  if events.length = 0 then { success := true }
  else
    match out with
    | .ok s => { success := true, status := some s }
    | .httpError s body => { success := false, status := some s, errorText := some body }
    | .networkError msg => { success := false, errorText := some msg }

/-- Synchronous prefix of `Transport.flush` (up to the first `await`): the
guard `isSending || queue.length === 0`, then `isSending := true` and the
atomic swap of the queue into the in-flight batch. -/
def Transport.flushStart {α : Type} (s : TransportState α) : TransportState α :=
  if s.isSending ∨ s.queue.isEmpty then s
  else { queue := [], isSending := true, pending := some s.queue, delivered := s.delivered }

/-- Completion of `Transport.flush` after `await this.sendBatch(events)`
settles, parametric in how the awaited promise settled (`Except.ok` for a
resolved promise carrying the `TransportResult`, `Except.error` for a
rejected one).  The `.error` branch is the literal `catch` block of `flush`:
`this.queue = [...events, ...this.queue].slice(0, this.maxQueueSize)`. -/
def Transport.flushCompletion {α : Type} (s : TransportState α)
    (send : Except String TransportResult) : TransportState α :=
  match s.pending with
  | none => s
  | some batch =>
    match send with
    | .ok res =>
        { queue := s.queue, isSending := false, pending := none,
          delivered := if res.success then s.delivered ++ [batch] else s.delivered }
    | .error _ =>
        { queue := (batch ++ s.queue).take maxQueueSize, isSending := false,
          pending := none, delivered := s.delivered }

/-- The in-flight send settles.  Since `sendBatch` never rejects, the awaited
promise always resolves: its value reaches `flushCompletion` as `Except.ok`,
even when the contained result has `success := false` — which is exactly why
the `catch` re-queue branch of `flush` is unreachable for delivery failures. -/
def Transport.flushSettle {α : Type} (s : TransportState α) (out : FetchOutcome) :
    TransportState α :=
  Transport.flushCompletion s (Except.ok (Transport.sendBatch (s.pending.getD []) out))

/-- Queue mutation of `Transport.enqueue`: if the queue is full, `shift()`
drops the oldest event, then the new event is pushed. -/
def Transport.enqueuePush {α : Type} (q : List α) (e : α) : List α :=
  (if q.length ≥ maxQueueSize then q.tail else q) ++ [e]

/-- `Transport.enqueue` (src/transport.ts lines 63-78): push with
drop-oldest backpressure, then `if (this.queue.length >= 10) this.flush()`.
The unawaited `flush()` call runs synchronously up to its first `await`,
i.e. `flushStart`. -/
def Transport.enqueue {α : Type} (s : TransportState α) (e : α) : TransportState α :=
  if (Transport.enqueuePush s.queue e).length ≥ eagerFlushThreshold then
    Transport.flushStart { s with queue := Transport.enqueuePush s.queue e }
  else
    { s with queue := Transport.enqueuePush s.queue e }

/-- Synchronous segments of Transport activity between `await` points:
an `enqueue` call, a `flush()` call (from the timer or a direct call), and
the settling of the in-flight send with a given network outcome. -/
inductive TAction (α : Type) where
  | enq (e : α)
  | flushCall
  | settle (out : FetchOutcome)
deriving DecidableEq, Repr

def Transport.step {α : Type} (s : TransportState α) : TAction α → TransportState α
  | .enq e => Transport.enqueue s e
  | .flushCall => Transport.flushStart s
  | .settle out => Transport.flushSettle s out

def Transport.run {α : Type} (s : TransportState α) : List (TAction α) → TransportState α
  | [] => s
  | a :: rest => Transport.run (Transport.step s a) rest

/-- State of a freshly constructed `Transport`. -/
def Transport.initState (α : Type) : TransportState α :=
  { queue := [], isSending := false, pending := none, delivered := [] }

end Statly

namespace Statly

/-! ### Transport lemmas -/

theorem Transport.enqueuePush_length_le {α : Type} {q : List α}
    (h : q.length ≤ maxQueueSize) (e : α) :
    (Transport.enqueuePush q e).length ≤ maxQueueSize := by
  unfold Transport.enqueuePush
  split <;> simp_all [maxQueueSize]
  omega

theorem Transport.flushStart_queue_le {α : Type} (s : TransportState α)
    (h : s.queue.length ≤ maxQueueSize) :
    (Transport.flushStart s).queue.length ≤ maxQueueSize := by
  unfold Transport.flushStart
  split
  · exact h
  · simp [maxQueueSize]

theorem Transport.step_queue_le {α : Type} (s : TransportState α) (a : TAction α)
    (h : s.queue.length ≤ maxQueueSize) :
    (Transport.step s a).queue.length ≤ maxQueueSize := by
  cases a with
  | enq e =>
      have h' := Transport.enqueuePush_length_le h e
      simp only [Transport.step, Transport.enqueue]
      split
      · exact Transport.flushStart_queue_le _ h'
      · exact h'
  | flushCall =>
      simpa only [Transport.step] using Transport.flushStart_queue_le s h
  | settle out =>
      simp only [Transport.step, Transport.flushSettle, Transport.flushCompletion]
      cases s.pending <;> simp_all

theorem Transport.run_queue_le {α : Type} (acts : List (TAction α))
    (s : TransportState α) (h : s.queue.length ≤ maxQueueSize) :
    (Transport.run s acts).queue.length ≤ maxQueueSize := by
  induction acts generalizing s with
  | nil => exact h
  | cons a rest ih => exact ih _ (Transport.step_queue_le s a h)

/-! ### Claim theorems about the Transport -/

/-- C1: a flush whose send fails (here: the fetch rejects with a network
error) does NOT put the failed events back in the queue.  `sendBatch`
converts every delivery failure into a resolved `success := false` result,
so the `catch` block of `flush` that performs the re-queue never runs: after
the failed flush the queue holds only the event enqueued during the send,
and the failed batch is neither queued nor delivered.  The second conjunct
evaluates the `catch` block itself (`flushCompletion` applied to a rejected
promise), showing the re-queue code exists but is only reachable from a
rejected promise, which `sendBatch` never produces. -/
theorem transport_flush_failure_drops_batch :
    (Transport.run (⟨[10, 11], false, none, []⟩ : TransportState Nat)
        [.flushCall, .enq 12, .settle (.networkError "fetch failed")] =
      ⟨[12], false, none, []⟩)
    ∧ (Transport.flushCompletion (⟨[12], true, some [10, 11], []⟩ : TransportState Nat)
        (Except.error "rejected") = ⟨[10, 11, 12], false, none, []⟩) :=
  ⟨rfl, rfl⟩

set_option maxRecDepth 20000 in
/-- C2 counterexample: 101 `enqueue` calls on a fresh Transport do NOT leave
the queue at length 100 with the first event evicted.  The 10th enqueue
crosses the eager-flush threshold and the unawaited `flush()` synchronously
swaps events 1-10 out of the queue into the in-flight batch, so the final
queue is events 11-101 (length 91) and event 1 was sent, not evicted. -/
theorem transport_fresh_101_enqueues_not_full :
    (Transport.run (Transport.initState Nat) ((List.range' 1 101).map TAction.enq) =
      ⟨List.range' 11 91, true, some (List.range' 1 10), []⟩)
    ∧ ¬ ((Transport.run (Transport.initState Nat)
          ((List.range' 1 101).map TAction.enq)).queue.length = 100) := by
  constructor
  · rfl
  · decide

set_option maxRecDepth 20000 in
/-- C2 (amended): the queue length never exceeds the capacity 100 under any
sequence of enqueue / flush / settle actions; an enqueue arriving when the
queue is full first evicts the oldest event and then appends; and when a
send is already in flight (`isSending`, so the eager flush is a no-op),
enqueueing 101 events leaves the queue at events 2..101 — the 1st event
evicted and the length at 100. -/
theorem transport_queue_bound_and_eviction :
    (∀ acts : List (TAction Nat),
      (Transport.run (Transport.initState Nat) acts).queue.length ≤ maxQueueSize)
    ∧ (∀ (q : List Nat) (e : Nat), q.length = maxQueueSize →
        Transport.enqueuePush q e = q.tail ++ [e])
    ∧ ((Transport.run (⟨[], true, some [0], []⟩ : TransportState Nat)
        ((List.range' 1 101).map TAction.enq)).queue = List.range' 2 100) := by
  refine ⟨fun acts => Transport.run_queue_le acts _ (by simp [Transport.initState]), ?_, ?_⟩
  · intro q e h
    unfold Transport.enqueuePush
    rw [if_pos (le_of_eq h.symm)]
  · rfl

theorem transport_queue_bound_and_eviction_witness :
    ((Transport.run (Transport.initState Nat) [TAction.enq 1]).queue.length ≤ maxQueueSize)
    ∧ (Transport.enqueuePush (List.range' 1 100) 5 = (List.range' 1 100).tail ++ [5]) :=
  ⟨transport_queue_bound_and_eviction.1 [TAction.enq 1],
   transport_queue_bound_and_eviction.2.1 (List.range' 1 100) 5 (by decide)⟩

/-- C8 counterexample: in a host where `window` is undefined (e.g. Node.js),
`startFlushTimer` installs no timer at all — the claim that every host
environment gets a periodic 5-second flush timer is false. -/
theorem transport_no_timer_without_window :
    Transport.startFlushTimer false = none := rfl

/-- C8 (amended): the periodic 5-second flush timer is started at
construction only in browser-like hosts (where `window` is defined); in
other hosts no timer is installed.  In every host, `enqueue` additionally
triggers an immediate flush exactly when the post-append queue length
reaches the threshold 10: below the threshold the queue is just appended,
at or above it the queue is synchronously swapped into an in-flight batch
(when no send is already in flight). -/
theorem transport_timer_and_eager_flush :
    (Transport.startFlushTimer true = some flushIntervalMs)
    ∧ (Transport.startFlushTimer false = none)
    ∧ (∀ (s : TransportState Nat) (e : Nat),
        s.isSending = false →
        eagerFlushThreshold ≤ (Transport.enqueuePush s.queue e).length →
        (Transport.enqueue s e).pending = some (Transport.enqueuePush s.queue e)
          ∧ (Transport.enqueue s e).queue = [])
    ∧ (∀ (s : TransportState Nat) (e : Nat),
        (Transport.enqueuePush s.queue e).length < eagerFlushThreshold →
        (Transport.enqueue s e).queue = Transport.enqueuePush s.queue e
          ∧ (Transport.enqueue s e).pending = s.pending) := by
  refine ⟨rfl, rfl, ?_, ?_⟩
  · intro s e hs h
    have hne : Transport.enqueuePush s.queue e ≠ [] := by
      simp [Transport.enqueuePush]
    unfold Transport.enqueue
    rw [if_pos h]
    unfold Transport.flushStart
    rw [if_neg]
    · exact ⟨rfl, rfl⟩
    · simp [hs, hne]
  · intro s e h
    unfold Transport.enqueue
    rw [if_neg (by omega)]
    exact ⟨rfl, rfl⟩

theorem transport_timer_and_eager_flush_witness :
    ((⟨List.range' 1 9, false, none, []⟩ : TransportState Nat).isSending = false)
    ∧ ((Transport.enqueue (⟨List.range' 1 9, false, none, []⟩ : TransportState Nat) 10).queue = [])
    ∧ ((Transport.enqueue (Transport.initState Nat) 7).queue = [7]) :=
  ⟨rfl,
   (transport_timer_and_eager_flush.2.2.1 ⟨List.range' 1 9, false, none, []⟩ 10 rfl
      (by decide)).2,
   by
    have h := (transport_timer_and_eager_flush.2.2.2 (Transport.initState Nat) 7 (by decide)).1
    simpa [Transport.enqueuePush, Transport.initState] using h⟩

end Statly

namespace Statly

/-! ## Breadcrumb ring buffer (src/src/breadcrumbs.ts)

The buffer holds opaque breadcrumb records; their timestamp stamping is
irrelevant to the claims, so the element type is a parameter.  Trimming uses
JavaScript `Array.prototype.slice(-max)`, whose quirk at `max = 0`
(`slice(-0)` is `slice(0)`, a copy of the whole array) is embedded
faithfully in `jsSliceLast`. -/

/-- JS `a.slice(-n)` for a non-negative `n`: the last `n` elements, except
that `n = 0` yields the whole array because `-0 === 0`. -/
def jsSliceLast {α : Type} (l : List α) (n : Nat) : List α :=
  if n = 0 then l else l.drop (l.length - n)

structure BreadcrumbManager (α : Type) where
  breadcrumbs : List α
  maxBreadcrumbs : Nat
deriving DecidableEq, Repr

/-- Constructor with its default `maxBreadcrumbs = 100`. -/
def BreadcrumbManager.new (α : Type) (maxBreadcrumbs : Nat := 100) :
    BreadcrumbManager α :=
  { breadcrumbs := [], maxBreadcrumbs := maxBreadcrumbs }

/-- `add`: push, then trim to the most recent `maxBreadcrumbs` when over
the limit. -/
def BreadcrumbManager.add {α : Type} (m : BreadcrumbManager α) (crumb : α) :
    BreadcrumbManager α :=
  if (m.breadcrumbs ++ [crumb]).length > m.maxBreadcrumbs then
    { m with breadcrumbs := jsSliceLast (m.breadcrumbs ++ [crumb]) m.maxBreadcrumbs }
  else
    { m with breadcrumbs := m.breadcrumbs ++ [crumb] }

/-- `getAll` returns a defensive copy of the buffer. -/
def BreadcrumbManager.getAll {α : Type} (m : BreadcrumbManager α) : List α :=
  m.breadcrumbs

def BreadcrumbManager.clear {α : Type} (m : BreadcrumbManager α) :
    BreadcrumbManager α :=
  { m with breadcrumbs := [] }

/-- `setMaxBreadcrumbs`: store the new limit and trim the existing content
when it exceeds the new limit. -/
def BreadcrumbManager.setMaxBreadcrumbs {α : Type} (m : BreadcrumbManager α)
    (mx : Nat) : BreadcrumbManager α :=
  if m.breadcrumbs.length > mx then
    { breadcrumbs := jsSliceLast m.breadcrumbs mx, maxBreadcrumbs := mx }
  else
    { m with maxBreadcrumbs := mx }

/-- A client-visible mutation of the breadcrumb manager. -/
inductive BOp (α : Type) where
  | add (crumb : α)
  | setMax (mx : Nat)
deriving DecidableEq, Repr

def BreadcrumbManager.runOps {α : Type} (m : BreadcrumbManager α) :
    List (BOp α) → BreadcrumbManager α
  | [] => m
  | .add c :: rest => (m.add c).runOps rest
  | .setMax mx :: rest => (m.setMaxBreadcrumbs mx).runOps rest

/-- All breadcrumbs added by a sequence of operations, in insertion order. -/
def addedCrumbs {α : Type} : List (BOp α) → List α
  | [] => []
  | .add c :: rest => c :: addedCrumbs rest
  | .setMax _ :: rest => addedCrumbs rest

/-- Every limit used by the operations is positive. -/
def positiveLimits {α : Type} (ops : List (BOp α)) : Bool :=
  ops.all fun op =>
    match op with
    | .add _ => true
    | .setMax mx => decide (1 ≤ mx)

theorem jsSliceLast_suffix {α : Type} (l : List α) (n : Nat) :
    jsSliceLast l n <:+ l := by
  unfold jsSliceLast
  split
  · exact List.suffix_refl l
  · exact List.drop_suffix _ l

theorem jsSliceLast_length_le {α : Type} (l : List α) {n : Nat} (h : 1 ≤ n) :
    (jsSliceLast l n).length ≤ n := by
  unfold jsSliceLast
  rw [if_neg (by omega)]
  rw [List.length_drop]
  omega

end Statly

namespace Statly

theorem suffix_append_single {α : Type} {l h : List α} (c : α) (hs : l <:+ h) :
    l ++ [c] <:+ h ++ [c] := by
  obtain ⟨t, rfl⟩ := hs
  exact ⟨t, (List.append_assoc t l [c]).symm⟩

theorem BreadcrumbManager.add_max {α : Type} (m : BreadcrumbManager α) (c : α) :
    (m.add c).maxBreadcrumbs = m.maxBreadcrumbs := by
  unfold BreadcrumbManager.add
  split <;> rfl

theorem BreadcrumbManager.add_length_le {α : Type} (m : BreadcrumbManager α)
    (c : α) (hmax : 1 ≤ m.maxBreadcrumbs) :
    (m.add c).breadcrumbs.length ≤ m.maxBreadcrumbs := by
  unfold BreadcrumbManager.add
  split
  · exact jsSliceLast_length_le _ hmax
  · simp_all only [List.length_append, List.length_singleton, gt_iff_lt, not_lt]

theorem BreadcrumbManager.add_suffix {α : Type} (m : BreadcrumbManager α)
    (c : α) {h : List α} (hsuf : m.breadcrumbs <:+ h) :
    (m.add c).breadcrumbs <:+ h ++ [c] := by
  unfold BreadcrumbManager.add
  split
  · exact (jsSliceLast_suffix _ _).trans (suffix_append_single c hsuf)
  · exact suffix_append_single c hsuf

theorem BreadcrumbManager.setMax_max {α : Type} (m : BreadcrumbManager α)
    (mx : Nat) : (m.setMaxBreadcrumbs mx).maxBreadcrumbs = mx := by
  unfold BreadcrumbManager.setMaxBreadcrumbs
  split <;> rfl

theorem BreadcrumbManager.setMax_length_le {α : Type} (m : BreadcrumbManager α)
    {mx : Nat} (h1 : 1 ≤ mx) :
    (m.setMaxBreadcrumbs mx).breadcrumbs.length ≤ mx := by
  unfold BreadcrumbManager.setMaxBreadcrumbs
  split
  · exact jsSliceLast_length_le _ h1
  · simp only
    omega

theorem BreadcrumbManager.setMax_suffix {α : Type} (m : BreadcrumbManager α)
    (mx : Nat) : (m.setMaxBreadcrumbs mx).breadcrumbs <:+ m.breadcrumbs := by
  unfold BreadcrumbManager.setMaxBreadcrumbs
  split
  · exact jsSliceLast_suffix _ _
  · exact List.suffix_refl _

theorem BreadcrumbManager.runOps_invariant {α : Type} (ops : List (BOp α))
    (m : BreadcrumbManager α) (h : List α)
    (hmax : 1 ≤ m.maxBreadcrumbs)
    (hlen : m.breadcrumbs.length ≤ m.maxBreadcrumbs)
    (hsuf : m.breadcrumbs <:+ h)
    (hops : positiveLimits ops = true) :
    ((m.runOps ops).breadcrumbs.length ≤ (m.runOps ops).maxBreadcrumbs)
    ∧ ((m.runOps ops).breadcrumbs <:+ h ++ addedCrumbs ops) := by
  induction ops generalizing m h with
  | nil =>
      simp only [BreadcrumbManager.runOps, addedCrumbs, List.append_nil]
      exact ⟨hlen, hsuf⟩
  | cons op rest ih =>
      cases op with
      | add c =>
          have hops' : positiveLimits rest = true := by
            simp only [positiveLimits, List.all_cons, Bool.true_and] at hops
            exact hops
          have step := ih (m.add c) (h ++ [c])
            (by rw [BreadcrumbManager.add_max]; exact hmax)
            (by rw [BreadcrumbManager.add_max]; exact m.add_length_le c hmax)
            (m.add_suffix c hsuf) hops'
          simpa [BreadcrumbManager.runOps, addedCrumbs, List.append_assoc] using step
      | setMax mx =>
          simp only [positiveLimits, List.all_cons, Bool.and_eq_true,
            decide_eq_true_eq] at hops
          have h1 : 1 ≤ mx := hops.1
          have hops' : positiveLimits rest = true := hops.2
          have step := ih (m.setMaxBreadcrumbs mx) h
            (by rw [BreadcrumbManager.setMax_max]; exact h1)
            (by rw [BreadcrumbManager.setMax_max]; exact m.setMax_length_le h1)
            ((m.setMax_suffix mx).trans hsuf) hops'
          simpa [BreadcrumbManager.runOps, addedCrumbs] using step

/-- C3 counterexample: `setMaxBreadcrumbs 0` after one `add` leaves the
buffer holding one breadcrumb while the limit is 0, so
`getAll().length ≤ maxBreadcrumbs` fails.  The trim uses `slice(-max)` and
JavaScript `slice(-0)` is `slice(0)`, a copy of the whole array, so a limit
of 0 never trims anything. -/
theorem breadcrumbs_zero_limit_not_trimmed :
    ¬ ((((BreadcrumbManager.new Nat 100).add 7).setMaxBreadcrumbs 0).getAll.length ≤
        (((BreadcrumbManager.new Nat 100).add 7).setMaxBreadcrumbs 0).maxBreadcrumbs) := by
  decide

/-- C3 (amended): provided the initial limit and every limit passed to
`setMaxBreadcrumbs` are positive, after any sequence of `add` and
`setMaxBreadcrumbs` calls `getAll()` returns at most `maxBreadcrumbs`
entries, and those entries are a suffix of the full insertion-ordered add
history — i.e. exactly the most recently added N breadcrumbs in original
order, with the oldest evicted first (shrinking the limit trims
immediately). -/
theorem breadcrumbs_bounded_and_recent (m0 : Nat) (ops : List (BOp Nat))
    (h0 : 1 ≤ m0) (hops : positiveLimits ops = true) :
    (((BreadcrumbManager.new Nat m0).runOps ops).getAll.length ≤
        ((BreadcrumbManager.new Nat m0).runOps ops).maxBreadcrumbs)
    ∧ (((BreadcrumbManager.new Nat m0).runOps ops).getAll <:+ addedCrumbs ops) := by
  have inv := BreadcrumbManager.runOps_invariant ops (BreadcrumbManager.new Nat m0) []
    (by simpa [BreadcrumbManager.new] using h0)
    (by simp [BreadcrumbManager.new])
    (by simp [BreadcrumbManager.new])
    hops
  simpa [BreadcrumbManager.getAll] using inv

theorem breadcrumbs_bounded_and_recent_witness :
    ((((BreadcrumbManager.new Nat 2).runOps
          [BOp.add 5, BOp.add 6, BOp.add 7, BOp.setMax 1]).getAll.length ≤
        ((BreadcrumbManager.new Nat 2).runOps
          [BOp.add 5, BOp.add 6, BOp.add 7, BOp.setMax 1]).maxBreadcrumbs)
      ∧ (((BreadcrumbManager.new Nat 2).runOps
          [BOp.add 5, BOp.add 6, BOp.add 7, BOp.setMax 1]).getAll <:+
        addedCrumbs [BOp.add 5, BOp.add 6, BOp.add 7, BOp.setMax 1])) :=
  breadcrumbs_bounded_and_recent 2 [BOp.add 5, BOp.add 6, BOp.add 7, BOp.setMax 1]
    (by decide) (by decide)

end Statly

namespace Statly

/-! ## Logger levels and gate (src/src/logger/types.ts, Logger class)

`LOG_LEVELS` is the numeric rank table; `audit` is rank 6, the maximum. -/

inductive LogLevel where
  | trace
  | debug
  | info
  | warn
  | error
  | fatal
  | audit
deriving DecidableEq, Repr

def LOG_LEVELS : LogLevel → Nat
  | .trace => 0
  | .debug => 1
  | .info => 2
  | .warn => 3
  | .error => 4
  | .fatal => 5
  | .audit => 6

def DEFAULT_LEVELS : List LogLevel := [.debug, .info, .warn, .error, .fatal]

def EXTENDED_LEVELS : List LogLevel :=
  [.trace, .debug, .info, .warn, .error, .fatal, .audit]

/-- The level-gating state of a `Logger`: `minLevel` is
`LOG_LEVELS[config.level || 'debug']` and `enabledLevels` the parsed level
set. -/
structure LoggerState where
  minLevel : Nat
  enabledLevels : List LogLevel
deriving DecidableEq, Repr

/-- `Logger.shouldLog`: audit always passes; otherwise the entry's rank must
reach `minLevel` and the level must be in the enabled set. -/
def Logger.shouldLog (lg : LoggerState) (level : LogLevel) : Bool :=
  if level = .audit then true
  else if LOG_LEVELS level < lg.minLevel then false
  else lg.enabledLevels.contains level

/-- Whether the public logging method for `level` writes an entry to the
destinations: `trace`/`debug`/`info`/`warn`/`error`/`fatal`/`log` are each
guarded by `shouldLog`, while `audit` calls `write` unconditionally. -/
def Logger.emits (lg : LoggerState) (level : LogLevel) : Bool :=
  match level with
  | .audit => true
  | l => Logger.shouldLog lg l

/-- The fields of a `LogEntry` relevant to destination filtering. -/
structure LogEntry where
  level : LogLevel
  message : String
deriving DecidableEq, Repr

/-! ### Observe destination (src/logger/destinations/observe.ts,
src/unnamed/part_001) -/

/-- `DEFAULT_SAMPLING` from the Observe destination: trace 1%, debug 10%,
info 50%, everything else (audit included) 100%. -/
def DEFAULT_SAMPLING : LogLevel → Rat
  | .trace => 1 / 100
  | .debug => 1 / 10
  | .info => 1 / 2
  | _ => 1

/-- Filtering configuration of an `ObserveDestination`. -/
structure ObserveDest where
  enabled : Bool
  levels : List LogLevel
  minLevel : Nat
  sampling : LogLevel → Rat

/-- Default-configured Observe destination: enabled, all seven levels
allowed, `minLevel = 0`, default sampling. -/
def ObserveDest.default : ObserveDest :=
  { enabled := true, levels := EXTENDED_LEVELS, minLevel := 0,
    sampling := DEFAULT_SAMPLING }

/-- The guard chain of `ObserveDestination.write` (part_001 lines 76-106):
enabled flag, allowed-level set, minimum level, then sampling — where the
`Math.random()` draw is the explicit parameter `rand` and audit skips only
the sampling check.  Returns whether the entry is queued. -/
def ObserveDest.accepts (d : ObserveDest) (entry : LogEntry) (rand : Rat) : Bool :=
  if d.enabled = false then false
  else if d.levels.contains entry.level = false then false
  else if LOG_LEVELS entry.level < d.minLevel then false
  else if entry.level ≠ .audit ∧ rand > d.sampling entry.level then false
  else true

/-! ### Console destination (src/logger/destinations/console.ts) -/

/-- Filtering configuration of a `ConsoleDestination`; `minLevel` starts at
0 and is only changed through `setMinLevel`. -/
structure ConsoleDest where
  enabled : Bool
  levels : List LogLevel
  minLevel : Nat
deriving DecidableEq, Repr

/-- The guard chain of `ConsoleDestination.write`: enabled flag,
allowed-level set, minimum level; sampling does not exist here.  Returns
whether the entry is output. -/
def ConsoleDest.accepts (d : ConsoleDest) (entry : LogEntry) : Bool :=
  if d.enabled = false then false
  else if d.levels.contains entry.level = false then false
  else if LOG_LEVELS entry.level < d.minLevel then false
  else true

/-- C4 counterexample: an enabled Observe destination whose configured
allowed-level set excludes `audit` drops an audit entry — the destinations
do NOT pass audit through unconditionally; the allowed-level set check
applies to audit like any other level (only sampling is skipped). -/
theorem observe_level_set_drops_audit :
    ObserveDest.accepts
      { enabled := true, levels := [.warn, .error], minLevel := 0,
        sampling := DEFAULT_SAMPLING }
      { level := .audit, message := "m" } 0 = false := by
  decide

/-- C4 (amended): `Logger.audit` bypasses the logger's own level gate
entirely (it writes even when the minimum level is `fatal` and `audit` is
not in the logger's enabled-level set); at the destinations, audit is never
sampled and always passes the minimum-level check (its rank 6 is maximal,
and `setMinLevel` can only set values ≤ 6), but a destination's
allowed-level set still applies to audit: an audit entry reaches a
destination iff the destination is enabled and `audit` is in its configured
level list (as it is in both destinations' defaults). -/
theorem audit_bypass_amended :
    (∀ lg : LoggerState, Logger.emits lg .audit = true)
    ∧ (Logger.emits { minLevel := LOG_LEVELS LogLevel.fatal, enabledLevels := DEFAULT_LEVELS }
        .audit = true)
    ∧ (∀ (d : ObserveDest) (entry : LogEntry) (rand : Rat),
        d.enabled = true → d.levels.contains .audit = true →
        d.minLevel ≤ LOG_LEVELS .audit → entry.level = .audit →
        d.accepts entry rand = true)
    ∧ (∀ (d : ConsoleDest) (entry : LogEntry),
        d.enabled = true → d.levels.contains .audit = true →
        d.minLevel ≤ LOG_LEVELS .audit → entry.level = .audit →
        d.accepts entry = true) := by
  refine ⟨fun lg => rfl, rfl, ?_, ?_⟩
  · intro d entry rand hen hlv hmin hl
    unfold ObserveDest.accepts
    rw [hl] at *
    simp only [hen, hlv, LOG_LEVELS] at *
    rw [if_neg (by simp), if_neg (by simp), if_neg (by omega), if_neg (by simp)]
  · intro d entry hen hlv hmin hl
    unfold ConsoleDest.accepts
    rw [hl] at *
    simp only [hen, hlv, LOG_LEVELS] at *
    rw [if_neg (by simp), if_neg (by simp), if_neg (by omega)]

theorem audit_bypass_amended_witness :
    (ObserveDest.accepts ObserveDest.default { level := .audit, message := "a" } 1 = true)
    ∧ (ConsoleDest.accepts { enabled := true, levels := EXTENDED_LEVELS, minLevel := 0 }
        { level := .audit, message := "a" } = true) :=
  ⟨audit_bypass_amended.2.2.1 ObserveDest.default _ 1 rfl (by decide) (by decide) rfl,
   audit_bypass_amended.2.2.2 _ _ rfl (by decide) (by decide) rfl⟩

/-- C5: for every non-audit level, a log call at that level produces an
entry iff the level is in the logger's enabled-level set and its numeric
rank is at least the configured minimum level; concretely, a Logger with
`levels: ['warn','error','fatal']` and `level: 'info'` drops `debug()` and
`info()` but accepts `warn()`. -/
theorem logger_level_gate :
    (∀ (lg : LoggerState) (l : LogLevel), l ≠ .audit →
      (Logger.emits lg l = true ↔
        (lg.enabledLevels.contains l = true ∧ lg.minLevel ≤ LOG_LEVELS l)))
    ∧ (Logger.emits
        { minLevel := LOG_LEVELS LogLevel.info,
          enabledLevels := [.warn, .error, .fatal] } .debug = false)
    ∧ (Logger.emits
        { minLevel := LOG_LEVELS LogLevel.info,
          enabledLevels := [.warn, .error, .fatal] } .info = false)
    ∧ (Logger.emits
        { minLevel := LOG_LEVELS LogLevel.info,
          enabledLevels := [.warn, .error, .fatal] } .warn = true) := by
  refine ⟨?_, by decide, by decide, by decide⟩
  intro lg l hl
  cases l with
  | audit => exact absurd rfl hl
  | _ =>
      simp only [Logger.emits, Logger.shouldLog, LOG_LEVELS]
      rw [if_neg (by decide)]
      split
      next hmin =>
        simp only [Bool.false_eq_true, false_iff, not_and]
        intro _
        omega
      next hmin =>
        rw [Nat.not_lt] at hmin
        simp [hmin]

theorem logger_level_gate_witness :
    Logger.emits
        { minLevel := LOG_LEVELS LogLevel.info,
          enabledLevels := [.warn, .error, .fatal] } .warn = true ↔
      (([LogLevel.warn, .error, .fatal].contains .warn = true)
        ∧ LOG_LEVELS .info ≤ LOG_LEVELS .warn) :=
  logger_level_gate.1
    { minLevel := LOG_LEVELS LogLevel.info,
      enabledLevels := [.warn, .error, .fatal] } .warn (by decide)

end Statly

namespace Statly

/-! ## Secret scrubber (src/src/logger/scrubbing/scrubber.ts, patterns.ts)

JSON-ish values are modelled by `JVal`.  The regex stage (`scrubString` /
`scrubMessage`, applying the configured pattern set to a string) is kept
abstract as the `patternScrub` function parameter of the configuration: the
claims about it only concern strings the patterns do not match, which is
expressed by hypotheses of the form `patternScrub s = s`.  Everything else —
key-based redaction, the allowlist, the custom-scrubber hook, the traversal
— is embedded from the source. -/

/-- ASCII lowercasing, standing in for JavaScript `toLowerCase()` on the
ASCII key names the scrubber compares (`String.toLower` itself is not
kernel-reducible). -/
def lowerChar (c : Char) : Char :=
  if c.isUpper then Char.ofNat (c.toNat + 32) else c

def toLowerStr (s : String) : String :=
  String.mk (s.data.map lowerChar)

/-- `SENSITIVE_KEYS` from patterns.ts (case-insensitive key set). -/
def SENSITIVE_KEYS : List String :=
  ["password", "passwd", "pwd", "secret", "api_key", "apikey", "api-key",
   "token", "access_token", "accesstoken", "refresh_token", "auth",
   "authorization", "bearer", "credential", "credentials", "private_key",
   "privatekey", "private-key", "secret_key", "secretkey", "secret-key",
   "session_id", "sessionid", "session-id", "session", "cookie",
   "x-api-key", "x-auth-token", "x-access-token"]

/-- The redaction placeholder `REDACTED`. -/
def REDACTED : String := "[REDACTED]"

/-- `isSensitiveKey`: membership of the lowercased key in the set. -/
def isSensitiveKey (key : String) : Bool :=
  SENSITIVE_KEYS.contains (toLowerStr key)

/-- JSON-like runtime values: strings, numbers, booleans, null/undefined,
arrays and plain objects (ordered field lists). -/
inductive JVal where
  | str (s : String)
  | num (n : Int)
  | boolean (b : Bool)
  | null
  | arr (items : List JVal)
  | obj (fields : List (String × JVal))

/-- Scrubber configuration: `enabled`, the lowercased `allowlist`, the
abstract pattern stage, and the optional custom scrubber hook. -/
structure ScrubberCfg where
  enabled : Bool
  allowlist : List String
  patternScrub : String → String
  customScrubber : Option (String → JVal → Option JVal)

/-- The `Scrubber` built from an empty config plus a pattern stage: enabled,
empty allowlist, no custom scrubber, default built-in pattern set. -/
def Scrubber.defaultCfg (ps : String → String) : ScrubberCfg :=
  { enabled := true, allowlist := [], patternScrub := ps, customScrubber := none }

/-- The custom-scrubber hook of `scrubValue`: it runs only for non-empty
keys, and its result replaces the node only when it differs from the input
value.  The source detects a change by reference (`result !== value`),
which a value model cannot observe, so the hook is modelled as returning
`some changed` when it changes the node and `none` when it leaves it. -/
def customResult (cfg : ScrubberCfg) (key : String) (v : JVal) : Option JVal :=
  match cfg.customScrubber with
  | none => none
  | some f => if key ≠ "" then f key v else none

mutual

/-- `Scrubber.scrubValue`: allowlist check, custom hook, sensitive-key
wholesale redaction (no recursion into the value), then type dispatch —
strings through the pattern stage, arrays recursing with stringified
indices as keys, objects recursing with field names as keys, other scalars
unchanged. -/
def scrubValue (cfg : ScrubberCfg) (key : String) (v : JVal) : JVal :=
  if key ≠ "" ∧ cfg.allowlist.contains (toLowerStr key) then v
  else
    (customResult cfg key v).getD
      (if key ≠ "" ∧ isSensitiveKey key then .str REDACTED
       else
         match v with
         | .null => .null
         | .str s => .str (cfg.patternScrub s)
         | .arr items => .arr (scrubItems cfg 0 items)
         | .obj fields => .obj (scrubFields cfg fields)
         | other => other)

/-- `value.map((item, index) => this.scrubValue(item, String(index)))`. -/
def scrubItems (cfg : ScrubberCfg) (i : Nat) : List JVal → List JVal
  | [] => []
  | x :: xs => scrubValue cfg (toString i) x :: scrubItems cfg (i + 1) xs

/-- `Scrubber.scrubObject`: scrub every field value under its key. -/
def scrubFields (cfg : ScrubberCfg) : List (String × JVal) → List (String × JVal)
  | [] => []
  | (k, v) :: fs => (k, scrubValue cfg k v) :: scrubFields cfg fs

end

/-- `Scrubber.scrub`: identity when disabled, else `scrubValue` with the
empty root key. -/
def Scrubber.scrub (cfg : ScrubberCfg) (v : JVal) : JVal :=
  if cfg.enabled = false then v else scrubValue cfg "" v

/-- `Scrubber.scrubMessage`: identity when disabled, else the pattern
stage. -/
def Scrubber.scrubMessage (cfg : ScrubberCfg) (msg : String) : String :=
  if cfg.enabled = false then msg else cfg.patternScrub msg

end Statly

namespace Statly

/-- C6: with the default configuration, `scrub` replaces the value of every
sensitive map key at any depth wholesale with the redaction marker without
recursing into it (third conjunct: any value under a sensitive key becomes
the marker), leaves non-sensitive keys whose string values match no pattern
untouched, and an allowlisted key bypasses both key- and pattern-based
redaction: the example map redacts `password` and `nested.token`, keeps
`note`, and with `"password"` allowlisted `scrub` returns the map
unchanged.  `ps` is the pattern stage; the hypothesis says the patterns do
not match `"safe"`. -/
theorem scrubber_key_redaction_and_allowlist (ps : String → String)
    (hps : ps "safe" = "safe") :
    (Scrubber.scrub (Scrubber.defaultCfg ps)
        (.obj [("password", .str "x"),
               ("nested", .obj [("token", .str "y")]),
               ("note", .str "safe")]) =
      .obj [("password", .str REDACTED),
            ("nested", .obj [("token", .str REDACTED)]),
            ("note", .str "safe")])
    ∧ (Scrubber.scrub
        { enabled := true, allowlist := ["password"], patternScrub := ps,
          customScrubber := none }
        (.obj [("password", .str "x")]) = .obj [("password", .str "x")])
    ∧ (∀ (key : String) (v : JVal), key ≠ "" → isSensitiveKey key = true →
        scrubValue (Scrubber.defaultCfg ps) key v = .str REDACTED) := by
  have h1 : isSensitiveKey "password" = true := by decide
  have h2 : isSensitiveKey "nested" = false := by decide
  have h3 : isSensitiveKey "token" = true := by decide
  have h4 : isSensitiveKey "note" = false := by decide
  have h5 : toLowerStr "password" = "password" := by decide
  refine ⟨?_, ?_, ?_⟩
  · simp [Scrubber.scrub, scrubValue, scrubFields, customResult,
      Scrubber.defaultCfg, hps, h1, h2, h3, h4]
  · simp [Scrubber.scrub, scrubValue, scrubFields, customResult, h1, h5]
  · intro key v hk hs
    cases v <;> simp [scrubValue, customResult, Scrubber.defaultCfg, hk, hs]

theorem scrubber_key_redaction_and_allowlist_witness :
    (id "safe" = "safe")
    ∧ (Scrubber.scrub (Scrubber.defaultCfg id)
        (.obj [("password", .str "x"),
               ("nested", .obj [("token", .str "y")]),
               ("note", .str "safe")]) =
      .obj [("password", .str REDACTED),
            ("nested", .obj [("token", .str REDACTED)]),
            ("note", .str "safe")]) :=
  ⟨rfl, (scrubber_key_redaction_and_allowlist id rfl).1⟩

end Statly

namespace Statly

/-! ## Span / trace wrapper (src/src/telemetry.ts)

`TelemetryProvider.startSpan`, `finishSpan` and the `trace` wrapper are
embedded from src/src/telemetry.ts.  The `Span` class itself lives in
`src/span.ts`, which is not under src/; its mutators are modelled from the
spec. -/

/-- Modelled from the spec: span status is the enum OK | ERROR (§3, §4.3);
`src/span.ts` is not under src/. -/
inductive SpanStatus where
  | ok
  | error
deriving DecidableEq, Repr

/-- Modelled from the spec: the `Span` data model of §3 — name, trace/span
ids, nullable parent id, start time, end time and duration set exactly once
by `finish` (idempotent), status defaulting to OK, and tag/metadata maps;
`src/span.ts` is not under src/. -/
structure Span where
  name : String
  traceId : String
  spanId : String
  parentId : Option String
  startTime : Nat
  endTime : Option Nat
  durationMs : Option Nat
  status : SpanStatus
  tags : List (String × String)
deriving DecidableEq, Repr

/-- Modelled from the spec: `setTag` updates the tag map; the map is read
through first-match lookup, so setting prepends. -/
def Span.setTag (s : Span) (k v : String) : Span :=
  { s with tags := (k, v) :: s.tags }

/-- Modelled from the spec: `setStatus` overwrites the status. -/
def Span.setStatus (s : Span) (st : SpanStatus) : Span :=
  { s with status := st }

/-- Modelled from the spec: `finish(endTime?)` is idempotent — only the
first call sets `endTime` and `durationMs` (§3, §4.3). -/
def Span.finish (s : Span) (t : Nat) : Span :=
  if s.endTime.isSome then s
  else { s with endTime := some t, durationMs := some (t - s.startTime) }

/-- State shared by `TraceContext` (the process-wide active-span slot) and
`TelemetryProvider` (the registered client sink, with a ghost list of the
spans reported to it through `client.captureSpan`). -/
structure Telemetry where
  activeSpan : Option Span
  clientSet : Bool
  captured : List Span
deriving DecidableEq, Repr

/-- `TelemetryProvider.startSpan`: inherit `traceId`/`parentId` from the
active span when present, else a fresh trace id; the new span becomes the
active span.  `genTraceId`/`genSpanId` stand for the `generateId()` draws
and `now` for the span's start time. -/
def TelemetryProvider.startSpan (st : Telemetry) (name : String)
    (tags : List (String × String)) (genTraceId genSpanId : String)
    (now : Nat) : Span × Telemetry :=
  let traceId := match st.activeSpan with
    | some parent => parent.traceId
    | none => genTraceId
  let parentId := match st.activeSpan with
    | some parent => some parent.spanId
    | none => none
  let span : Span :=
    { name := name, traceId := traceId, spanId := genSpanId,
      parentId := parentId, startTime := now, endTime := none,
      durationMs := none, status := .ok, tags := tags }
  (span, { st with activeSpan := some span })

/-- `TelemetryProvider.finishSpan`: finish the span, clear the active-span
slot only if the finishing span still owns it (the source compares object
identity; span ids are unique per span, so id equality models it), and
report the span to the client sink when one is registered. -/
def TelemetryProvider.finishSpan (st : Telemetry) (sp : Span) (now : Nat) :
    Telemetry :=
  let spf := sp.finish now
  let st1 :=
    match st.activeSpan with
    | some a => if a.spanId = sp.spanId then { st with activeSpan := none } else st
    | none => st
  if st1.clientSet then { st1 with captured := st1.captured ++ [spf] } else st1

/-- A thrown JavaScript value: `isError` is `value instanceof Error`, and
`name`/`message` are its fields when it is one. -/
structure Thrown where
  name : String
  message : String
  isError : Bool
deriving DecidableEq, Repr

/-- The exported `trace(name, operation, tags?)` wrapper of telemetry.ts.
`operation` receives the started span and yields a result or a thrown value
together with the span as it left the callback (the callback may have
mutated it).  The `catch` branch records status/tags before re-throwing;
the `finally` branch always runs `finishSpan` on the span. -/
def Telemetry.trace {β : Type} (st : Telemetry) (name : String)
    (tags : List (String × String)) (genTraceId genSpanId : String)
    (t0 t1 : Nat) (op : Span → Except Thrown β × Span) :
    Except Thrown β × Telemetry :=
  let started := TelemetryProvider.startSpan st name tags genTraceId genSpanId t0
  match op started.1 with
  | (.ok v, s1) => (.ok v, TelemetryProvider.finishSpan started.2 s1 t1)
  | (.error e, s1) =>
      let s2 := (s1.setStatus .error).setTag "error" "true"
      let s3 :=
        if e.isError then
          (s2.setTag "exception.type" e.name).setTag "exception.message" e.message
        else s2
      (.error e, TelemetryProvider.finishSpan started.2 s3 t1)

end Statly


namespace Statly

theorem Span.finish_endTime_isSome (s : Span) (t : Nat) :
    ((s.finish t).endTime).isSome = true := by
  unfold Span.finish
  split
  · assumption
  · simp

theorem Span.finish_status (s : Span) (t : Nat) : (s.finish t).status = s.status := by
  unfold Span.finish
  split <;> rfl

theorem Span.finish_tags (s : Span) (t : Nat) : (s.finish t).tags = s.tags := by
  unfold Span.finish
  split <;> rfl

theorem TelemetryProvider.finishSpan_captured (st : Telemetry) (sp : Span)
    (now : Nat) (h : st.clientSet = true) :
    (TelemetryProvider.finishSpan st sp now).captured =
      st.captured ++ [sp.finish now] := by
  unfold TelemetryProvider.finishSpan
  cases hA : st.activeSpan with
  | none => simp [h]
  | some a => by_cases hid : a.spanId = sp.spanId <;> simp [h, hid]

/-- The span that a failing `trace` call hands to `finishSpan`: the
callback's span with status ERROR, tag `error='true'`, and — when the
thrown value is an `Error` — its type and message as tags. -/
def errorSpan (s1 : Span) (e : Thrown) : Span :=
  if e.isError then
    ((((s1.setStatus .error).setTag "error" "true").setTag
      "exception.type" e.name).setTag "exception.message" e.message)
  else (s1.setStatus .error).setTag "error" "true"

theorem trace_error_eq {β : Type} (st : Telemetry) (name : String)
    (tags : List (String × String)) (g1 g2 : String) (t0 t1 : Nat)
    (op : Span → Except Thrown β × Span) (e : Thrown) (s1 : Span)
    (hop : op (TelemetryProvider.startSpan st name tags g1 g2 t0).1 = (.error e, s1)) :
    Telemetry.trace st name tags g1 g2 t0 t1 op =
      (.error e,
        TelemetryProvider.finishSpan
          (TelemetryProvider.startSpan st name tags g1 g2 t0).2 (errorSpan s1 e) t1) := by
  unfold Telemetry.trace errorSpan
  simp only [hop]

theorem trace_ok_eq {β : Type} (st : Telemetry) (name : String)
    (tags : List (String × String)) (g1 g2 : String) (t0 t1 : Nat)
    (op : Span → Except Thrown β × Span) (v : β) (s1 : Span)
    (hop : op (TelemetryProvider.startSpan st name tags g1 g2 t0).1 = (.ok v, s1)) :
    Telemetry.trace st name tags g1 g2 t0 t1 op =
      (.ok v,
        TelemetryProvider.finishSpan
          (TelemetryProvider.startSpan st name tags g1 g2 t0).2 s1 t1) := by
  unfold Telemetry.trace
  simp only [hop]

/-- C7: when the `trace(name, operation)` wrapper's operation throws `e`,
the call re-throws `e` unchanged, and the span is finished and reported to
the registered client sink exactly once, with status ERROR, tag
`error = 'true'`, and — when the thrown value is an `Error` — the exception
type and message recorded as tags; on normal return the result is likewise
returned unchanged and the finished span reported exactly once. -/
theorem trace_error_reporting {β : Type} (st : Telemetry)
    (hclient : st.clientSet = true) (name : String)
    (tags : List (String × String)) (g1 g2 : String) (t0 t1 : Nat)
    (op : Span → Except Thrown β × Span) :
    (∀ (e : Thrown) (s1 : Span),
      op (TelemetryProvider.startSpan st name tags g1 g2 t0).1 = (.error e, s1) →
      ((Telemetry.trace st name tags g1 g2 t0 t1 op).1 = .error e
        ∧ ∃ sf : Span,
            (Telemetry.trace st name tags g1 g2 t0 t1 op).2.captured =
                st.captured ++ [sf]
              ∧ sf.status = .error
              ∧ sf.tags.lookup "error" = some "true"
              ∧ sf.endTime.isSome = true
              ∧ (e.isError = true →
                  sf.tags.lookup "exception.type" = some e.name
                    ∧ sf.tags.lookup "exception.message" = some e.message)))
    ∧ (∀ (v : β) (s1 : Span),
      op (TelemetryProvider.startSpan st name tags g1 g2 t0).1 = (.ok v, s1) →
      ((Telemetry.trace st name tags g1 g2 t0 t1 op).1 = .ok v
        ∧ (Telemetry.trace st name tags g1 g2 t0 t1 op).2.captured =
            st.captured ++ [s1.finish t1])) := by
  have hcs : (TelemetryProvider.startSpan st name tags g1 g2 t0).2.clientSet = true := by
    simpa [TelemetryProvider.startSpan] using hclient
  have hcap : (TelemetryProvider.startSpan st name tags g1 g2 t0).2.captured =
      st.captured := by
    simp [TelemetryProvider.startSpan]
  constructor
  · intro e s1 hop
    rw [trace_error_eq st name tags g1 g2 t0 t1 op e s1 hop]
    refine ⟨rfl, (errorSpan s1 e).finish t1, ?_, ?_, ?_, ?_, ?_⟩
    · rw [TelemetryProvider.finishSpan_captured _ _ _ hcs, hcap]
    · rw [Span.finish_status]
      unfold errorSpan
      split <;> simp [Span.setTag, Span.setStatus]
    · rw [Span.finish_tags]
      unfold errorSpan
      split <;> simp +decide [Span.setTag, List.lookup]
    · exact Span.finish_endTime_isSome _ _
    · intro hE
      rw [Span.finish_tags]
      unfold errorSpan
      rw [if_pos hE]
      constructor <;> simp +decide [Span.setTag, List.lookup]
  · intro v s1 hop
    rw [trace_ok_eq st name tags g1 g2 t0 t1 op v s1 hop]
    exact ⟨rfl, by rw [TelemetryProvider.finishSpan_captured _ _ _ hcs, hcap]⟩

theorem trace_error_reporting_witness :
    ((⟨none, true, []⟩ : Telemetry).clientSet = true)
    ∧ ((Telemetry.trace (⟨none, true, []⟩ : Telemetry) "work" [] "t1" "s1" 0 5
          (fun sp => ((.error ⟨"Error", "boom", true⟩ : Except Thrown Nat), sp))).1 =
        .error ⟨"Error", "boom", true⟩
      ∧ ∃ sf : Span,
          (Telemetry.trace (⟨none, true, []⟩ : Telemetry) "work" [] "t1" "s1" 0 5
              (fun sp => ((.error ⟨"Error", "boom", true⟩ : Except Thrown Nat), sp))).2.captured =
              (⟨none, true, []⟩ : Telemetry).captured ++ [sf]
            ∧ sf.status = .error
            ∧ sf.tags.lookup "error" = some "true"
            ∧ sf.endTime.isSome = true
            ∧ ((⟨"Error", "boom", true⟩ : Thrown).isError = true →
                sf.tags.lookup "exception.type" =
                    some (⟨"Error", "boom", true⟩ : Thrown).name
                  ∧ sf.tags.lookup "exception.message" =
                    some (⟨"Error", "boom", true⟩ : Thrown).message)) :=
  ⟨rfl,
   (trace_error_reporting (⟨none, true, []⟩ : Telemetry) rfl "work" [] "t1" "s1" 0 5
      (fun sp => ((.error ⟨"Error", "boom", true⟩ : Except Thrown Nat), sp))).1
     ⟨"Error", "boom", true⟩
     (TelemetryProvider.startSpan (⟨none, true, []⟩ : Telemetry) "work" [] "t1" "s1" 0).1
     rfl⟩

end Statly

namespace Statly

/-! ## Module-level facade (src/unnamed/part_002, src/index.ts)

The module keeps one global `client : StatlyClient | null`.  The
`StatlyClient` class itself (`src/client.ts`) is not under src/; the
initialized branches delegate to it and are modelled abstractly, which is
irrelevant to the claims — both claims concern the uninitialized guard,
which is fully present in part_002. -/

/-- Observable outcome of a module-level capture call: the returned event
identifier, whether a warning was printed, and whether a capture was
performed on the client. -/
structure CaptureOutcome where
  eventId : String
  warned : Bool
  captured : Bool
deriving DecidableEq, Repr

/-- Abstract stand-in for an initialized `StatlyClient` (src/client.ts, not
under src/): just the event ids its capture methods would return. -/
structure ClientModel where
  captureExceptionId : String
  captureMessageId : String
deriving DecidableEq, Repr

/-- Module-level `captureException`: when no client is initialized, warn
and return the empty id without capturing; otherwise delegate.  Totality of
this function is the no-throw guarantee. -/
def captureExceptionTop (client : Option ClientModel) : CaptureOutcome :=
  match client with
  | none => { eventId := "", warned := true, captured := false }
  | some c => { eventId := c.captureExceptionId, warned := false, captured := true }

/-- Module-level `captureMessage`: same guard as `captureExceptionTop`. -/
def captureMessageTop (client : Option ClientModel) : CaptureOutcome :=
  match client with
  | none => { eventId := "", warned := true, captured := false }
  | some c => { eventId := c.captureMessageId, warned := false, captured := true }

/-- Module-level `trace` (part_002 lines 216-225): with no client it calls
`operation(null as any)` directly — no span, no warning — and returns the
operation's outcome; with a client it delegates to `client.trace`
(`clientTrace` stands for that missing delegate).  The result triple is
(operation outcome, warning printed, span started). -/
def traceTop {β : Type} (client : Option ClientModel)
    (clientTrace : (Option Span → Except Thrown β) → Except Thrown β × Bool × Bool)
    (op : Option Span → Except Thrown β) : Except Thrown β × Bool × Bool :=
  match client with
  | none => (op none, false, false)
  | some _ => clientTrace op

/-- C9: a capture call made while the SDK is not initialized does not throw
(the embedded functions are total), emits a warning, performs no capture,
and returns the empty string as the event identifier. -/
theorem capture_uninitialized_noop :
    captureExceptionTop none = { eventId := "", warned := true, captured := false }
    ∧ captureMessageTop none = { eventId := "", warned := true, captured := false } :=
  ⟨rfl, rfl⟩

/-- C10: module-level `trace` while the SDK is not initialized starts no
span and emits no warning; the operation is invoked with a null (`none`)
span argument and its outcome — a value or a thrown error — is returned
unchanged. -/
theorem trace_uninitialized_null_span {β : Type}
    (clientTrace : (Option Span → Except Thrown β) → Except Thrown β × Bool × Bool)
    (op : Option Span → Except Thrown β) :
    traceTop none clientTrace op = (op none, false, false) :=
  rfl

end Statly
